import Mathlib

/-!
Verification of the Restaurant-Price-Optimizer pricing logic.

Shallow embedding of `src/pricing/services.py` (the `WeatherService` and
`PricingService` classes) and of the menu aggregation loop of
`src/pricing/views.py` (`PricingView.get`).

Python floats are modelled as exact rationals (ℚ); every arithmetic step of
the source (`(k - 273.15) * 9/5 + 32`, `1.1 + (busy_level - 70) / 100`,
`item price * (price_level / 2)`) is a ratio of small decimals, so the ℚ
translation follows the source expression for expression.  Dictionary
accesses with `.get(key, default)` are modelled with `Option` fields and
`Option.getD`; the one place the source can raise (indexing `[0]` into a
present-but-empty weather list) makes the embedded function return `none`.
-/

set_option maxHeartbeats 1000000

/-- Model of one entry of the `weather` list of an OpenWeather response:
a dictionary that may carry a `main` field (the condition name). -/
structure WeatherEntry where
  main : Option String
deriving DecidableEq, Repr

/-- Model of the dictionary handed to `calculate_price`: the source reads
the keys `temp` (Kelvin temperature) and `weather` (condition list) with
`.get`, so both are optional. -/
structure WeatherDict where
  temp : Option ℚ
  weather : Option (List WeatherEntry)
deriving DecidableEq, Repr

namespace WeatherService

/-- Embedding of `WeatherService.kelvin_to_fahrenheit`
(src/pricing/services.py line 224): `(kelvin - 273.15) * 9/5 + 32`. -/
def kelvin_to_fahrenheit (kelvin : ℚ) : ℚ :=
  (kelvin - 27315/100) * 9/5 + 32

end WeatherService

/-- Minimum of a list as Python's builtin `min` computes it on a non-empty
list; the `[]` case is junk (Python would raise) and is never reached
behind the non-empty guard of `calculate_price`. -/
def pyMin : List ℚ → ℚ
  | [] => 0
  | x :: xs => xs.foldl min x

namespace PricingService

/-- Embedding of line 282 of src/pricing/services.py:
`weather_data.get('weather', [{'main': 'Clear'}])[0].get('main', 'Clear')`.
A missing `weather` key defaults the whole list, so the condition is
`Clear`; a present but empty list makes the `[0]` index raise, modelled as
`none`; otherwise the first entry's `main` value, defaulted to `Clear`. -/
def weatherConditionOf (weather_data : WeatherDict) : Option String :=
  match weather_data.weather with
  | none => some "Clear"
  | some [] => none
  | some (e :: _) => some (e.main.getD "Clear")

/-- Embedding of lines 278-279 of src/pricing/services.py:
`temp_kelvin = weather_data.get('temp', 293.15)` followed by
`temp_f = (temp_kelvin - 273.15) * 9/5 + 32`. -/
def tempFOf (weather_data : WeatherDict) : ℚ :=
  let temp_kelvin := weather_data.temp.getD (29315/100)
  (temp_kelvin - 27315/100) * 9/5 + 32

/-- Embedding of `PricingService.calculate_price`
(src/pricing/services.py lines 243-294).  Empty competitor list returns the
base price; otherwise the lowest competitor price is marked up by
`1.1 + (busy_level - 70) / 100` and floor-clamped at the base price when
`(temp_f < 45 or bad_weather) and busy_level > 70`, and returned as is
otherwise.  The result is `none` exactly when the weather-condition access
of line 282 would raise. -/
def calculate_price (base_price : ℚ) (weather_data : WeatherDict)
    (busy_level : ℤ) (competitor_prices : List ℚ) : Option ℚ :=
  if competitor_prices = [] then
    some base_price
  else
    let lowest_price := pyMin competitor_prices
    let temp_f := tempFOf weather_data
    match weatherConditionOf weather_data with
    | none => none
    | some weather_conditions =>
      if (temp_f < 45 ∨ weather_conditions ∈ ["Rain", "Snow", "Thunderstorm"])
          ∧ 70 < busy_level then
        let markup := 11/10 + ((busy_level : ℚ) - 70) / 100
        some (max (lowest_price * markup) base_price)
      else
        some lowest_price

end PricingService

/-- Model of the main section of an OpenWeather response, as documented at
src/pricing/services.py lines 190-200: it carries the keys temp and
humidity, while the condition list sits beside it under the separate
top-level weather key, so the main section itself has no weather key. -/
structure MainSection where
  temp : Option ℚ
  humidity : Option ℤ
deriving DecidableEq, Repr

/-- Model of one sample menu item of src/pricing/views.py lines 76-81:
a name and a base price. -/
structure SampleItem where
  name : String
  price : ℚ
deriving DecidableEq, Repr

/-- Model of one nearby restaurant as consumed by the aggregation loop of
src/pricing/views.py lines 87-90: only its optional price_level matters. -/
structure NearbyRestaurant where
  price_level : Option ℤ
deriving DecidableEq, Repr

/-- Model of one entry appended to menu_items at src/pricing/views.py
lines 99-104. -/
structure MenuQuote where
  name : String
  original_price : ℚ
  new_price : ℚ
  price_change : ℚ
deriving DecidableEq, Repr

namespace PricingView

/-- Embedding of the weather argument built at src/pricing/views.py line
95: `weather_data.get('main', {})`.  Whether or not the response carries a
main section, the dictionary handed to `calculate_price` has no weather
key. -/
def viewWeatherArg (main : Option MainSection) : WeatherDict :=
  match main with
  | some m => ⟨m.temp, none⟩
  | none => ⟨none, none⟩

/-- Embedding of src/pricing/views.py lines 86-90: competitor prices for
one item are gathered from the first five nearby restaurants whose
price_level is present and truthy (nonzero), each contributing
`item price * (price_level / 2)`. -/
def competitorPricesFor (item : SampleItem)
    (nearby : List NearbyRestaurant) : List ℚ :=
  (nearby.take 5).filterMap fun r =>
    match r.price_level with
    | some pl => if pl = 0 then none else some (item.price * ((pl : ℚ) / 2))
    | none => none

/-- Embedding of the aggregation loop of src/pricing/views.py lines
84-104: items whose derived competitor list is empty are skipped, the
others are priced with `calculate_price` and emitted in input order
together with their percent price change; `none` models the exception
path of the surrounding try block. -/
def menuItemsLoop (w : WeatherDict) (busy : ℤ)
    (nearby : List NearbyRestaurant) :
    List SampleItem → Option (List MenuQuote)
  | [] => some []
  | item :: rest =>
    if competitorPricesFor item nearby = [] then
      menuItemsLoop w busy nearby rest
    else
      match PricingService.calculate_price item.price w busy
              (competitorPricesFor item nearby),
            menuItemsLoop w busy nearby rest with
      | some np, some tail =>
          some (⟨item.name, item.price, np,
                 (np - item.price) / item.price * 100⟩ :: tail)
      | _, _ => none

end PricingView

/-- Helper: on a dictionary without a weather key the condition defaults to
Clear, so `calculate_price` reduces to a test on temperature and busy level
alone. -/
theorem calculate_price_of_no_weather_key (base_price : ℚ) (w : WeatherDict)
    (busy_level : ℤ) (competitor_prices : List ℚ)
    (hw : w.weather = none) (hne : competitor_prices ≠ []) :
    PricingService.calculate_price base_price w busy_level competitor_prices
      = some (if PricingService.tempFOf w < 45 ∧ 70 < busy_level
          then max (pyMin competitor_prices
              * (11/10 + ((busy_level : ℚ) - 70) / 100)) base_price
          else pyMin competitor_prices) := by
  simp only [PricingService.calculate_price, PricingService.weatherConditionOf,
    hw, if_neg hne]
  by_cases h : PricingService.tempFOf w < 45 ∧ 70 < busy_level
  · rw [if_pos ⟨Or.inl h.1, h.2⟩, if_pos h]
  · rw [if_neg, if_neg h]
    rintro ⟨hlt | hmem, hb⟩
    · exact h ⟨hlt, hb⟩
    · simp at hmem

/-- C1: whenever the competitor list is non-empty, the Fahrenheit
temperature is below 45 or the condition is adverse, and the busy level
exceeds 70, `calculate_price` returns the lowest competitor price times
the markup `1.1 + (busy_level - 70) / 100`, floor-clamped at the base
price; in particular the result is never below the base price. -/
theorem C1_markup_branch (base_price tempK : ℚ) (cond : String)
    (busy_level : ℤ) (competitor_prices : List ℚ)
    (hne : competitor_prices ≠ [])
    (hadv : (tempK - 27315/100) * 9/5 + 32 < 45
        ∨ cond ∈ ["Rain", "Snow", "Thunderstorm"])
    (hbusy : 70 < busy_level) :
    PricingService.calculate_price base_price ⟨some tempK, some [⟨some cond⟩]⟩
        busy_level competitor_prices
      = some (max (pyMin competitor_prices
          * (11/10 + ((busy_level : ℚ) - 70) / 100)) base_price)
    ∧ base_price ≤ max (pyMin competitor_prices
          * (11/10 + ((busy_level : ℚ) - 70) / 100)) base_price := by
  refine ⟨?_, le_max_right _ _⟩
  simp only [PricingService.calculate_price, PricingService.weatherConditionOf,
    PricingService.tempFOf, Option.getD_some, if_neg hne]
  rw [if_pos ⟨hadv, hbusy⟩]

/-- C1 witness: the markup branch at base 15.99, temperature 283.15 K,
condition Rain, busy level 80, competitors [14.99, 16.99]. -/
theorem C1_markup_branch_witness :
    (([1499/100, 1699/100] : List ℚ) ≠ []
      ∧ (((28315/100 : ℚ) - 27315/100) * 9/5 + 32 < 45
          ∨ "Rain" ∈ ["Rain", "Snow", "Thunderstorm"])
      ∧ (70 : ℤ) < 80)
    ∧ (PricingService.calculate_price (1599/100)
          ⟨some (28315/100), some [⟨some "Rain"⟩]⟩ 80 [1499/100, 1699/100]
        = some (max (pyMin [1499/100, 1699/100]
            * (11/10 + (((80 : ℤ) : ℚ) - 70) / 100)) (1599/100))
      ∧ (1599/100 : ℚ) ≤ max (pyMin [1499/100, 1699/100]
            * (11/10 + (((80 : ℤ) : ℚ) - 70) / 100)) (1599/100)) :=
  ⟨⟨by simp, by simp, by norm_num⟩,
    C1_markup_branch (1599/100) (28315/100) "Rain" 80 [1499/100, 1699/100]
      (by simp) (by simp) (by norm_num)⟩

/-- C2: whenever the competitor list is non-empty, the condition is not
adverse and the Fahrenheit temperature is at least 45, `calculate_price`
returns exactly the lowest competitor price, for every busy level. -/
theorem C2_normal_conditions (base_price tempK : ℚ) (cond : String)
    (busy_level : ℤ) (competitor_prices : List ℚ)
    (hne : competitor_prices ≠ [])
    (hcond : cond ∉ ["Rain", "Snow", "Thunderstorm"])
    (htemp : 45 ≤ (tempK - 27315/100) * 9/5 + 32) :
    PricingService.calculate_price base_price ⟨some tempK, some [⟨some cond⟩]⟩
        busy_level competitor_prices = some (pyMin competitor_prices) := by
  simp only [PricingService.calculate_price, PricingService.weatherConditionOf,
    PricingService.tempFOf, Option.getD_some, if_neg hne]
  rw [if_neg]
  rintro ⟨hlt | hmem, -⟩
  · exact absurd hlt (not_lt.mpr htemp)
  · exact hcond hmem

/-- C2 witness: normal conditions at base 12, temperature 293.15 K,
condition Clear, busy level 95, competitors [10, 11]. -/
theorem C2_normal_conditions_witness :
    (([10, 11] : List ℚ) ≠ []
      ∧ "Clear" ∉ ["Rain", "Snow", "Thunderstorm"]
      ∧ (45 : ℚ) ≤ ((29315/100 : ℚ) - 27315/100) * 9/5 + 32)
    ∧ PricingService.calculate_price 12 ⟨some (29315/100), some [⟨some "Clear"⟩]⟩
        95 [10, 11] = some (pyMin [10, 11]) :=
  ⟨⟨by simp, by simp, by norm_num⟩,
    C2_normal_conditions 12 (29315/100) "Clear" 95 [10, 11]
      (by simp) (by simp) (by norm_num)⟩

/-- C3: for every base price, every weather dictionary (whatever keys it
holds) and every busy level, `calculate_price` on an empty competitor list
returns the base price unchanged. -/
theorem C3_empty_competitors (base_price : ℚ) (weather_data : WeatherDict)
    (busy_level : ℤ) :
    PricingService.calculate_price base_price weather_data busy_level []
      = some base_price := rfl

/-- C8: `kelvin_to_fahrenheit` computes `(k - 273.15) * 9/5 + 32` for every
input, and in particular maps 273.15 K to 32 °F and 373.15 K to 212 °F. -/
theorem C8_kelvin_to_fahrenheit (kelvin : ℚ) :
    WeatherService.kelvin_to_fahrenheit kelvin
        = (kelvin - 27315/100) * 9/5 + 32
    ∧ WeatherService.kelvin_to_fahrenheit (27315/100) = 32
    ∧ WeatherService.kelvin_to_fahrenheit (37315/100) = 212 := by
  refine ⟨rfl, ?_, ?_⟩ <;> norm_num [WeatherService.kelvin_to_fahrenheit]

/-- C6: at busy level exactly 70 the busier-than-usual test (a strict
comparison) fails, so for every temperature and every condition string the
markup branch is not taken and the lowest competitor price is returned. -/
theorem C6_busy_level_70 (base_price : ℚ) (t : Option ℚ) (cond : String)
    (competitor_prices : List ℚ) (hne : competitor_prices ≠ []) :
    PricingService.calculate_price base_price ⟨t, some [⟨some cond⟩]⟩
        70 competitor_prices = some (pyMin competitor_prices) := by
  simp only [PricingService.calculate_price, PricingService.weatherConditionOf,
    Option.getD_some, if_neg hne]
  rw [if_neg]
  exact fun h => lt_irrefl 70 h.2

/-- C6 witness: busy level 70 with freezing temperature 263.15 K and
condition Snow still returns the lowest competitor price. -/
theorem C6_busy_level_70_witness :
    (([5, 8] : List ℚ) ≠ [])
    ∧ PricingService.calculate_price 9 ⟨some (26315/100), some [⟨some "Snow"⟩]⟩
        70 [5, 8] = some (pyMin [5, 8]) :=
  ⟨by simp, C6_busy_level_70 9 (some (26315/100)) "Snow" [5, 8] (by simp)⟩

/-- C10: a weather dictionary carrying neither a temp nor a weather key
defaults to 293.15 K (which converts to 68 °F, not cold) and condition
Clear (not adverse), so for every busy level the markup branch is skipped
and the lowest competitor price is returned. -/
theorem C10_missing_keys_defaults (base_price : ℚ) (busy_level : ℤ)
    (competitor_prices : List ℚ) (hne : competitor_prices ≠ []) :
    PricingService.calculate_price base_price ⟨none, none⟩ busy_level
        competitor_prices = some (pyMin competitor_prices)
    ∧ PricingService.tempFOf ⟨none, none⟩ = 68
    ∧ PricingService.weatherConditionOf ⟨none, none⟩ = some "Clear" := by
  refine ⟨?_, by norm_num [PricingService.tempFOf], rfl⟩
  simp only [PricingService.calculate_price, PricingService.weatherConditionOf,
    PricingService.tempFOf, Option.getD_none, if_neg hne]
  rw [if_neg]
  rintro ⟨hlt | hmem, -⟩
  · norm_num at hlt
  · simp at hmem

/-- C10 witness: the empty weather dictionary with busy level 90 and
competitors [3, 4]. -/
theorem C10_missing_keys_defaults_witness :
    (([3, 4] : List ℚ) ≠ [])
    ∧ (PricingService.calculate_price 7 ⟨none, none⟩ 90 [3, 4]
          = some (pyMin [3, 4])
      ∧ PricingService.tempFOf ⟨none, none⟩ = 68
      ∧ PricingService.weatherConditionOf ⟨none, none⟩ = some "Clear") :=
  ⟨by simp, C10_missing_keys_defaults 7 90 [3, 4] (by simp)⟩

/-- C4: evaluation of the code at the failing input basePrice = 1,
temperature 293.15 K, condition Rain, busyLevel = 100, competitor
prices [10]: the markup computed by the code is 1.1 + 30/100 = 1.4 and the
returned price is 14, strictly above the bound 1.3 x 10 = 13 that both the
claim and the code's own docstring and comments put on the marked-up
value. -/
theorem C4_markup_exceeds_documented_bound :
    PricingService.calculate_price 1 ⟨some (29315/100), some [⟨some "Rain"⟩]⟩
        100 [10] = some 14
    ∧ (11/10 : ℚ) + (((100 : ℤ) : ℚ) - 70) / 100 = 14/10
    ∧ (13/10 : ℚ) * pyMin [10] < 14 := by
  refine ⟨?_, by norm_num, by norm_num [pyMin]⟩
  simp only [PricingService.calculate_price, PricingService.weatherConditionOf,
    PricingService.tempFOf, Option.getD_some, pyMin]
  norm_num

/-- C5: on base price 15.99, condition Rain, busy level 80 and competitor
prices [14.99, 16.99], whatever the temperature entry holds, the markup is
1.2, the lowest competitor price is 14.99, and the result is
`max(14.99 * 1.2, 15.99) = 17.988`. -/
theorem C5_rain_example (t : Option ℚ) :
    PricingService.calculate_price (1599/100) ⟨t, some [⟨some "Rain"⟩]⟩ 80
        [1499/100, 1699/100] = some (17988/1000)
    ∧ (11/10 : ℚ) + (((80 : ℤ) : ℚ) - 70) / 100 = 12/10
    ∧ pyMin [1499/100, 1699/100] = 1499/100
    ∧ max ((1499/100 : ℚ) * (12/10)) (1599/100) = 17988/1000 := by
  refine ⟨?_, by norm_num, by norm_num [pyMin], by norm_num⟩
  simp only [PricingService.calculate_price, PricingService.weatherConditionOf,
    Option.getD, pyMin]
  norm_num
  all_goals simp

/-- C9: the dictionary the view passes to `calculate_price` never has a
weather key, so the condition read inside `calculate_price` is always
Clear, adverse weather is unreachable through the view, and the markup
branch triggers there exactly when the (defaulted) temperature is below
45 °F and the busy level exceeds 70. -/
theorem C9_view_adverse_weather_unreachable (main : Option MainSection)
    (base_price : ℚ) (busy_level : ℤ) (competitor_prices : List ℚ)
    (hne : competitor_prices ≠ []) :
    PricingService.weatherConditionOf (PricingView.viewWeatherArg main)
        = some "Clear"
    ∧ PricingService.calculate_price base_price (PricingView.viewWeatherArg main)
        busy_level competitor_prices
      = some (if PricingService.tempFOf (PricingView.viewWeatherArg main) < 45
              ∧ 70 < busy_level
          then max (pyMin competitor_prices
              * (11/10 + ((busy_level : ℚ) - 70) / 100)) base_price
          else pyMin competitor_prices) := by
  have hw : (PricingView.viewWeatherArg main).weather = none := by
    cases main <;> rfl
  constructor
  · simp [PricingService.weatherConditionOf, hw]
  · exact calculate_price_of_no_weather_key base_price _ busy_level
      competitor_prices hw hne

/-- C9 witness: a response whose main section reports 263.15 K (14 °F),
with busy level 80, base price 20 and competitors [10]. -/
theorem C9_view_adverse_weather_unreachable_witness :
    (([10] : List ℚ) ≠ [])
    ∧ (PricingService.weatherConditionOf
          (PricingView.viewWeatherArg (some ⟨some (26315/100), some 40⟩))
        = some "Clear"
      ∧ PricingService.calculate_price 20
          (PricingView.viewWeatherArg (some ⟨some (26315/100), some 40⟩)) 80 [10]
        = some (if PricingService.tempFOf
              (PricingView.viewWeatherArg (some ⟨some (26315/100), some 40⟩)) < 45
              ∧ (70 : ℤ) < 80
            then max (pyMin [10] * (11/10 + (((80 : ℤ) : ℚ) - 70) / 100)) 20
            else pyMin [10])) :=
  ⟨by simp,
    C9_view_adverse_weather_unreachable (some ⟨some (26315/100), some 40⟩)
      20 80 [10] (by simp)⟩

/-- C7: whenever the aggregation loop of the view completes, its output
lists exactly the input items whose derived competitor price list is
non-empty, in input order (pairing each emitted quote with its item name
and base price), and every emitted quote carries
`price_change = (new_price - original_price) / original_price * 100`. -/
theorem C7_loop_omission_order_change (w : WeatherDict) (busy : ℤ)
    (nearby : List NearbyRestaurant) :
    ∀ (items : List SampleItem) (out : List MenuQuote),
      PricingView.menuItemsLoop w busy nearby items = some out →
      out.map (fun q => (q.name, q.original_price))
          = (items.filter fun it =>
              !(PricingView.competitorPricesFor it nearby).isEmpty).map
            (fun it => (it.name, it.price))
      ∧ ∀ q ∈ out,
          q.price_change
            = (q.new_price - q.original_price) / q.original_price * 100 := by
  intro items
  induction items with
  | nil =>
    intro out h
    simp only [PricingView.menuItemsLoop, Option.some.injEq] at h
    subst h
    simp
  | cons item rest ih =>
    intro out h
    simp only [PricingView.menuItemsLoop] at h
    by_cases hc : PricingView.competitorPricesFor item nearby = []
    · rw [if_pos hc] at h
      obtain ⟨h1, h2⟩ := ih out h
      refine ⟨?_, h2⟩
      rw [h1, List.filter_cons, if_neg (by simp [hc])]
    · rw [if_neg hc] at h
      rcases hcp : PricingService.calculate_price item.price w busy
          (PricingView.competitorPricesFor item nearby) with _ | np <;>
        rcases hrest : PricingView.menuItemsLoop w busy nearby rest
          with _ | tail <;>
        rw [hcp, hrest] at h
      · exact Option.noConfusion h
      · exact Option.noConfusion h
      · exact Option.noConfusion h
      injection h with h
      subst h
      obtain ⟨h1, h2⟩ := ih tail hrest
      constructor
      · rw [List.filter_cons, if_pos]
        · simpa using h1
        · simpa using hc
      · intro q hq
        rcases List.mem_cons.mp hq with rfl | hq'
        · rfl
        · exact h2 q hq'

/-- C7 witness: a single item priced against one nearby restaurant of
price level 2, with the empty weather dictionary and busy level 75. -/
theorem C7_loop_omission_order_change_witness :
    (PricingView.menuItemsLoop ⟨none, none⟩ 75 [⟨some 2⟩] [⟨"Naan", 399/100⟩]
        = some [⟨"Naan", 399/100, 399/100, 0⟩])
    ∧ (([⟨"Naan", 399/100, 399/100, 0⟩] : List MenuQuote).map
          (fun q => (q.name, q.original_price))
        = (([⟨"Naan", 399/100⟩] : List SampleItem).filter fun it =>
            !(PricingView.competitorPricesFor it [⟨some 2⟩]).isEmpty).map
          (fun it => (it.name, it.price))
      ∧ ∀ q ∈ ([⟨"Naan", 399/100, 399/100, 0⟩] : List MenuQuote),
          q.price_change
            = (q.new_price - q.original_price) / q.original_price * 100) :=
  ⟨by
      simp [PricingView.menuItemsLoop, PricingView.competitorPricesFor,
        PricingService.calculate_price, PricingService.weatherConditionOf,
        PricingService.tempFOf, pyMin]
      norm_num,
    C7_loop_omission_order_change ⟨none, none⟩ 75 [⟨some 2⟩]
      [⟨"Naan", 399/100⟩] [⟨"Naan", 399/100, 399/100, 0⟩]
      (by
        simp [PricingView.menuItemsLoop, PricingView.competitorPricesFor,
          PricingService.calculate_price, PricingService.weatherConditionOf,
          PricingService.tempFOf, pyMin]
        norm_num)⟩
